import Mathlib

/-!
Shallow embedding of the read-only FAT12/16/32 access layer
(`src/common/fat32_base.c`) and theorems about it.

The volume image is modelled as a byte function `Img : Nat → Nat`
(a byte at each absolute offset from the start of the image); all
multi-byte loads are explicit little-endian reads.  The `struct
fat_header` fields used by the code are carried in a `FatHeader`
record mirroring the BPB fields the C code dereferences.
-/

namespace Fat32

/-- A volume image: the byte at each absolute offset. -/
def Img : Type := Nat → Nat

/-- Read one byte (the C code only ever sees `u8` values). -/
def u8v (img : Img) (a : Nat) : Nat := img a % 256

/-- Little-endian 16-bit load, as done by `*(u16 *)p`. -/
def le16 (img : Img) (a : Nat) : Nat := u8v img a + 256 * u8v img (a + 1)

/-- Little-endian 32-bit load, as done by `*(u32 *)p`. -/
def le32 (img : Img) (a : Nat) : Nat :=
  u8v img a + 256 * u8v img (a + 1) + 65536 * u8v img (a + 2) +
    16777216 * u8v img (a + 3)

/-- Truncation to `u32`, for the places where the C code's 32-bit
arithmetic can wrap. -/
def u32wrap (x : Nat) : Nat := x % 4294967296

/-- `u32` subtraction `a - b` with wrap-around, as in C. -/
def sub32 (a b : Nat) : Nat :=
  (a + (4294967296 - b % 4294967296)) % 4294967296

/-- `enum fat_type` from `fat32_base.h`. -/
inductive FatType where
  | fat_unknown : FatType
  | fat12_type : FatType
  | fat16_type : FatType
  | fat32_type : FatType
deriving DecidableEq

export FatType (fat_unknown fat12_type fat16_type fat32_type)

/-- The BPB fields of `struct fat_header` (plus the two `fat32_header2`
fields) that `fat32_base.c` reads.  All values are the little-endian
decoded field contents. -/
structure FatHeader where
  BPB_BytsPerSec : Nat
  BPB_SecPerClus : Nat
  BPB_RsvdSecCnt : Nat
  BPB_NumFATs : Nat
  BPB_RootEntCnt : Nat
  BPB_TotSec16 : Nat
  BPB_FATSz16 : Nat
  BPB_TotSec32 : Nat
  BPB_FATSz32 : Nat
  BPB_RootClus : Nat
deriving DecidableEq

/-- Modelled from the spec (the helper lives in `fat32_base.h`, which is
not under `src/`): the FAT size in sectors is `BPB_FATSz16` when
nonzero, otherwise `BPB_FATSz32`.  The same rule appears verbatim in
`fat_get_first_data_sector` in `src/common/fat32_base.c`. -/
def fat_get_FATSz (hdr : FatHeader) : Nat :=
  if hdr.BPB_FATSz16 ≠ 0 then hdr.BPB_FATSz16 else hdr.BPB_FATSz32

/-- Modelled from the spec (helper in `fat32_base.h`, not under `src/`):
total sectors is the 16-bit variant when nonzero, otherwise the
32-bit variant. -/
def fat_get_TotSec (hdr : FatHeader) : Nat :=
  if hdr.BPB_TotSec16 ≠ 0 then hdr.BPB_TotSec16 else hdr.BPB_TotSec32

/-- Modelled from the spec (helper in `fat32_base.h`, not under `src/`):
`root_dir_sectors = ceil(root_ent_cnt * 32 / bytes_per_sector)`
(zero on FAT32, where `BPB_RootEntCnt = 0`). -/
def fat_get_RootDirSectors (hdr : FatHeader) : Nat :=
  (hdr.BPB_RootEntCnt * 32 + (hdr.BPB_BytsPerSec - 1)) / hdr.BPB_BytsPerSec

/-- The cluster count computed inside `fat_get_type`, with the same
32-bit unsigned arithmetic as the C code. -/
def fat_countof_clusters (hdr : FatHeader) : Nat :=
  let FATSz := fat_get_FATSz hdr
  let TotSec := fat_get_TotSec hdr
  let RootDirSectors := fat_get_RootDirSectors hdr
  let FatAreaSize := u32wrap (hdr.BPB_NumFATs * FATSz)
  let DataSec :=
    sub32 TotSec (u32wrap (hdr.BPB_RsvdSecCnt + FatAreaSize + RootDirSectors))
  DataSec / hdr.BPB_SecPerClus

/-- `fat_get_type` from `src/common/fat32_base.c`: Microsoft's
cluster-count classification rule. -/
def fat_get_type (hdr : FatHeader) : FatType :=
  let CountofClusters := fat_countof_clusters hdr
  if CountofClusters < 4085 then fat12_type
  else if CountofClusters < 65525 then fat16_type
  else fat32_type

/-- One step of `shortname_checksum`'s loop:
`sum = (u8)(((sum & 1) ? 0x80 : 0) + (sum >> 1) + byte)`. -/
def checksum_step (sum b : Nat) : Nat :=
  ((if sum % 2 = 1 then 128 else 0) + sum / 2 + b) % 256

/-- `shortname_checksum` from `src/common/fat32_base.c`: fold the step
over the 11 bytes of the 8.3 name. -/
def shortname_checksum (shortname : List Nat) : Nat :=
  (shortname.take 11).foldl checksum_step 0

/-- An 8-bit right rotation, the operation the spec names
`rotate_right_u8`. -/
def rotate_right_u8 (s : Nat) : Nat :=
  (s % 256) / 2 + (s % 2) * 128

/-- `fat32_is_valid_filename_character` from `src/common/fat32_base.c`:
the `fat32_valid_chars[256]` table.  Valid bytes are `35..126` minus
`* / : < > ? \\ |`; everything else (including space and `!`) is
invalid. -/
def fat32_is_valid_filename_character (c : Nat) : Bool :=
  35 ≤ c && c ≤ 126 && c ≠ 42 && c ≠ 47 && c ≠ 58 && c ≠ 60 && c ≠ 62 &&
    c ≠ 63 && c ≠ 92 && c ≠ 124

/-- `fat_read_fat_entry` from `src/common/fat32_base.c`.  Returns `none`
on the `NOT_REACHED()` FAT12 branch (FAT12 is unsupported); otherwise
reads the 16- or 32-bit FAT entry for `clusterN` inside FAT number
`fatNum`, zero-extended to 32 bits and (FAT32) masked to 28 bits. -/
def fat_read_fat_entry (hdr : FatHeader) (img : Img) (ft : FatType)
    (clusterN fatNum : Nat) : Option Nat :=
  let ft := if ft = fat_unknown then fat_get_type hdr else ft
  if ft = fat12_type then
    none
  else
    let FATSz := fat_get_FATSz hdr
    let FATOffset := if ft = fat16_type then clusterN * 2 else clusterN * 4
    let ThisFATSecNum :=
      fatNum * FATSz + hdr.BPB_RsvdSecCnt + FATOffset / hdr.BPB_BytsPerSec
    let ThisFATEntOffset := FATOffset % hdr.BPB_BytsPerSec
    let SecBuf := ThisFATSecNum * hdr.BPB_BytsPerSec
    if ft = fat16_type then
      some (le16 img (SecBuf + ThisFATEntOffset))
    else
      some (le32 img (SecBuf + ThisFATEntOffset) &&& 0x0FFFFFFF)

/-- `fat_get_first_data_sector` from `src/common/fat32_base.c`. -/
def fat_get_first_data_sector (hdr : FatHeader) : Nat :=
  let RootDirSectors := fat_get_RootDirSectors hdr
  let FATSz :=
    if hdr.BPB_FATSz16 ≠ 0 then hdr.BPB_FATSz16 else hdr.BPB_FATSz32
  hdr.BPB_RsvdSecCnt + hdr.BPB_NumFATs * FATSz + RootDirSectors

/-- `fat_get_sector_for_cluster` from `src/common/fat32_base.c`:
`(N - 2) * SecPerClus + FirstDataSector`, with the C code's `u32`
wrap-around on `N - 2`. -/
def fat_get_sector_for_cluster (hdr : FatHeader) (N : Nat) : Nat :=
  u32wrap (sub32 N 2 * hdr.BPB_SecPerClus + fat_get_first_data_sector hdr)

/-- Modelled from the spec (helper in `fat32_base.h`, not under `src/`):
`pointer_to_cluster(N) = base + sector_for_cluster(N) * bytes_per_sector`,
here the absolute byte offset of the cluster's data in the image. -/
def fat_get_pointer_to_cluster_data (hdr : FatHeader) (N : Nat) : Nat :=
  fat_get_sector_for_cluster hdr N * hdr.BPB_BytsPerSec

/-- Modelled from the spec (helper in `fat32_base.h`, not under `src/`):
FAT16 end-of-chain iff the value is `≥ 0xFFF8`; FAT32 end-of-chain iff
the 28-bit masked value is `≥ 0x0FFFFFF8`. -/
def fat_is_end_of_clusterchain (ft : FatType) (val : Nat) : Bool :=
  if ft = fat16_type then 0xFFF8 ≤ val
  else 0x0FFFFFF8 ≤ (val &&& 0x0FFFFFFF)

/-- Modelled from the spec (helper in `fat32_base.h`, not under `src/`):
FAT16 bad cluster iff the value is `0xFFF7`; FAT32 bad cluster iff the
28-bit masked value is `0x0FFFFFF7`. -/
def fat_is_bad_cluster (ft : FatType) (val : Nat) : Bool :=
  if ft = fat16_type then val = 0xFFF7
  else (val &&& 0x0FFFFFFF) = 0x0FFFFFF7

/-- `fat_get_rootdir` from `src/common/fat32_base.c`, returning the
absolute byte offset of the root directory and the root cluster (0 on
FAT16, `BPB_RootClus` on FAT32). -/
def fat_get_rootdir (hdr : FatHeader) (ft : FatType) : Nat × Nat :=
  if ft = fat16_type then
    let FirstDataSector := hdr.BPB_RsvdSecCnt + hdr.BPB_NumFATs * hdr.BPB_FATSz16
    (FirstDataSector * hdr.BPB_BytsPerSec, 0)
  else
    let cluster := hdr.BPB_RootClus
    (fat_get_sector_for_cluster hdr cluster * hdr.BPB_BytsPerSec, cluster)

/-! ## Directory-entry views

A directory slot is 32 bytes at some absolute offset `addr` of the
image.  The accessors below read the `fat_entry` / `fat_long_entry`
fields at their struct offsets: `DIR_Name` at 0..10, `DIR_Attr` at 11
(bitfield: readonly, hidden, system, volume_id, directory, archive),
`DIR_NTRes` at 12, `DIR_FstClusHI` at 20, `DIR_FstClusLO` at 26,
`DIR_FileSize` at 28; `LDIR_Ord` at 0, `LDIR_Name1` at 1..10,
`LDIR_Chksum` at 13, `LDIR_Name2` at 14..25, `LDIR_Name3` at 28..31. -/

/-- The 11 `DIR_Name` bytes of the slot at `addr`. -/
def dirName (img : Img) (addr : Nat) : List Nat :=
  (List.range 11).map fun k => u8v img (addr + k)

/-- The `DIR_Attr` byte. -/
def dirAttr (img : Img) (addr : Nat) : Nat := u8v img (addr + 11)

/-- The `volume_id` attribute bit (bit 3 of `DIR_Attr`). -/
def entryVolumeId (img : Img) (addr : Nat) : Bool := (dirAttr img addr).testBit 3

/-- The `directory` attribute bit (bit 4 of `DIR_Attr`). -/
def entryDirectory (img : Img) (addr : Nat) : Bool := (dirAttr img addr).testBit 4

/-- Modelled from the spec (helper in `fat32_base.h`, not under `src/`):
a slot is a VFAT long-name entry iff `DIR_Attr` equals the long-name
attribute (read-only|hidden|system|volume-id = 0x0F). -/
def is_long_name_entry (img : Img) (addr : Nat) : Bool := dirAttr img addr = 0x0F

/-- Modelled from the spec (helper in `fat32_base.h`, not under `src/`):
`first_cluster_of(entry) = (DIR_FstClusHI << 16) | DIR_FstClusLO`. -/
def fat_get_first_cluster (img : Img) (addr : Nat) : Nat :=
  le16 img (addr + 20) * 65536 + le16 img (addr + 26)

/-- The `DIR_FileSize` field. -/
def entryFileSize (img : Img) (addr : Nat) : Nat := le32 img (addr + 28)

/-- `LDIR_Chksum` of the long-name slot at `addr`. -/
def ldirChksum (img : Img) (addr : Nat) : Nat := u8v img (addr + 13)

/-- The 13 UTF-16 code units of a long-name slot as (low byte, high
byte) pairs, in the order the C loops scan them: `LDIR_Name1` (5 units
at bytes 1..10), `LDIR_Name2` (6 units at bytes 14..25), `LDIR_Name3`
(2 units at bytes 28..31). -/
def ldirUnits (img : Img) (addr : Nat) : List (Nat × Nat) :=
  ((List.range 5).map fun k => (u8v img (addr + 1 + 2 * k), u8v img (addr + 2 + 2 * k)))
    ++ ((List.range 6).map fun k =>
        (u8v img (addr + 14 + 2 * k), u8v img (addr + 15 + 2 * k)))
    ++ ((List.range 2).map fun k =>
        (u8v img (addr + 28 + 2 * k), u8v img (addr + 29 + 2 * k)))

/-! ## Long-name reassembly (`fat_handle_long_dir_entry`) -/

/-- `fat_walk_dir_ctx`: the long-name accumulator.  `lname_buf` holds
the first `lname_sz` bytes of the C buffer (the only part ever read);
`lname_chksum` is the `s16` checksum field (−1 or a `u8` value). -/
structure WalkCtx where
  lname_buf : List Nat
  lname_chksum : Int
  is_valid : Bool
deriving DecidableEq

/-- The unit-scanning loops of `fat_handle_long_dir_entry`: walk the 13
(low, high) pairs in order; a nonzero high byte invalidates the name
(`none`); a low byte of `0x00` or `0xFF` ends the scan, keeping what
was collected so far. -/
def scanUnits : List (Nat × Nat) → Option (List Nat)
  | [] => some []
  | (lo, hi) :: rest =>
    if hi ≠ 0 then none
    else if lo = 0 ∨ lo = 0xFF then some []
    else (scanUnits rest).map fun cs => lo :: cs

/-- The final loop of `fat_handle_long_dir_entry`: append `chars` to
`buf` one by one, stopping with `is_valid = false` at the first byte
that fails the filename whitelist.  (The caller passes the slot's
collected bytes already reversed, matching the C `for (i = ebuf_size-1;
i >= 0; i--)` loop.) -/
def appendChecked (buf : List Nat) : List Nat → List Nat × Bool
  | [] => (buf, true)
  | c :: cs =>
    if fat32_is_valid_filename_character c then appendChecked (buf ++ [c]) cs
    else (buf, false)

/-- `fat_handle_long_dir_entry` from `src/common/fat32_base.c`, acting
on the long-name slot at `addr`. -/
def fat_handle_long_dir_entry (img : Img) (ctx : WalkCtx) (addr : Nat) : WalkCtx :=
  let chksum := ldirChksum img addr
  let ctx :=
    if ctx.lname_chksum ≠ (chksum : Int) then
      { lname_buf := [], lname_chksum := (chksum : Int), is_valid := true }
    else ctx
  if ¬ ctx.is_valid then ctx
  else
    match scanUnits (ldirUnits img addr) with
    | none => { ctx with is_valid := false }
    | some chars =>
      let r := appendChecked ctx.lname_buf chars.reverse
      { ctx with lname_buf := r.1, is_valid := r.2 }

/-! ## Directory walker (`fat_walk_directory`)

The callback is modelled as a state transformer
`cb : FatHeader → FatType → Nat → Option (List Nat) → σ → σ × Int`
receiving the slot's absolute byte offset and the finalized long name
(already reversed into forward order), and returning the updated user
state together with the C `int` return value.  The walker returns
`none` on the abort paths (failed `ASSERT`/`NOT_REACHED`, or exhausted
chain fuel) and `some (finalWalkCtx, finalUserState, ret)` whenever the
C function returns. -/

/-- The long name handed to the callback for a short entry at `addr`:
non-null exactly when the accumulator is non-empty, valid, and its
checksum equals the short name's checksum; the buffer is then
NUL-terminated and reversed in place (here: reversed). -/
def deliveredLongName (img : Img) (ctx : WalkCtx) (addr : Nat) :
    Option (List Nat) :=
  if ctx.lname_buf.length > 0 ∧ ctx.is_valid ∧
      ctx.lname_chksum = (shortname_checksum (dirName img addr) : Int) then
    some ctx.lname_buf.reverse
  else
    none

/-- The inner `for (u32 i = 0; i < entries_per_cluster; i++)` loop of
`fat_walk_directory`, scanning `n` remaining slots starting at `base`.
`Sum.inl` is a `return 0` out of the whole walk (end-of-entries
sentinel, deleted-slot sentinel, or callback stop); `Sum.inr` means the
slot range was exhausted and the chain step follows. -/
def walkSlots {σ : Type}
    (hdr : FatHeader) (img : Img) (ft : FatType)
    (cb : FatHeader → FatType → Nat → Option (List Nat) → σ → σ × Int) :
    Nat → Nat → WalkCtx → σ → (WalkCtx × σ × Int) ⊕ (WalkCtx × σ)
  | _, 0, ctx, arg => Sum.inr (ctx, arg)
  | base, n + 1, ctx, arg =>
    if is_long_name_entry img base then
      walkSlots hdr img ft cb (base + 32) n (fat_handle_long_dir_entry img ctx base) arg
    else if entryVolumeId img base then
      walkSlots hdr img ft cb (base + 32) n ctx arg
    else if u8v img base = 0x00 then
      Sum.inl (ctx, arg, 0)
    else if u8v img base = 0xE5 then
      Sum.inl (ctx, arg, 0)
    else
      let lnp := deliveredLongName img ctx base
      let r := cb hdr ft base lnp arg
      let ctx' : WalkCtx := { ctx with lname_buf := [], lname_chksum := -1 }
      if r.2 ≠ 0 then Sum.inl (ctx', r.1, 0)
      else walkSlots hdr img ft cb (base + 32) n ctx' r.1

/-- The outer `while (true)` chain loop of `fat_walk_directory`.
`entry` is the byte offset passed as the `fat_entry *` argument
(`none` for `NULL`); `fuel` bounds the number of clusters followed. -/
def walkChain {σ : Type}
    (hdr : FatHeader) (img : Img) (ft : FatType)
    (cb : FatHeader → FatType → Nat → Option (List Nat) → σ → σ × Int) :
    Nat → Option Nat → Nat → WalkCtx → σ → Option (WalkCtx × σ × Int)
  | 0, _, _, _, _ => none
  | fuel + 1, entry, cluster, ctx, arg =>
    let entriesPerCluster :=
      hdr.BPB_BytsPerSec * hdr.BPB_SecPerClus / 32
    let entry' :=
      if cluster ≠ 0 then some (fat_get_pointer_to_cluster_data hdr cluster)
      else entry
    match entry' with
    | none => none
    | some base =>
      match walkSlots hdr img ft cb base entriesPerCluster ctx arg with
      | Sum.inl res => some res
      | Sum.inr (ctx', arg') =>
        if cluster = 0 then some (ctx', arg', 0)
        else
          match fat_read_fat_entry hdr img ft cluster 0 with
          | none => none
          | some val =>
            if fat_is_end_of_clusterchain ft val then some (ctx', arg', 0)
            else if fat_is_bad_cluster ft val then none
            else walkChain hdr img ft cb fuel entry' val ctx' arg'

/-- `fat_walk_directory` from `src/common/fat32_base.c`.  The leading
`ASSERT`s (supported FAT type; on FAT16, not both `entry` and
`cluster` supplied) abort (`none`); otherwise the long-name state is
reset (`is_valid` is deliberately left as it was, as in the C code)
and the chain loop runs. -/
def fat_walk_directory {σ : Type}
    (ctx : WalkCtx) (hdr : FatHeader) (img : Img) (ft : FatType)
    (entry : Option Nat) (cluster : Nat)
    (cb : FatHeader → FatType → Nat → Option (List Nat) → σ → σ × Int)
    (arg : σ) (fuel : Nat) : Option (WalkCtx × σ × Int) :=
  if ¬ (ft = fat16_type ∨ ft = fat32_type) then none
  else if ft = fat16_type ∧ cluster ≠ 0 ∧ entry ≠ none then none
  else
    let ctx0 : WalkCtx := { ctx with lname_buf := [], lname_chksum := -1 }
    walkChain hdr img ft cb fuel entry cluster ctx0 arg

/-! ## Short-name decoding and string comparison -/

/-- C `tolower` on a byte: `A`–`Z` map to `a`–`z`. -/
def ctolower (c : Nat) : Nat := if 65 ≤ c ∧ c ≤ 90 then c + 32 else c

/-- `fat_get_short_name` from `src/common/fat32_base.c`: basename =
`DIR_Name[0..8)` up to the first space (lowercased when `DIR_NTRes`
bit 3 is set), extension = `DIR_Name[8..11)` up to the first space
(lowercased when bit 4 is set), joined with `.` when `DIR_Name[8]` is
not a space.  The result is the byte list written before the final
NUL. -/
def fat_get_short_name (img : Img) (addr : Nat) : List Nat :=
  let name := dirName img addr
  let ntres := u8v img (addr + 12)
  let base := (name.take 8).takeWhile fun b => b ≠ 32
  let base := if ntres.testBit 3 then base.map ctolower else base
  let ext := (name.drop 8).takeWhile fun b => b ≠ 32
  let ext := if ntres.testBit 4 then ext.map ctolower else ext
  if name.getD 8 0 ≠ 32 then base ++ [46] ++ ext else base

/-- Modelled from the spec (`strcmp` from the string utilities, not
under `src/`), as the equality test `strcmp(a, b) == 0`: compare byte
by byte until a difference or a terminating NUL; the end of a list
counts as a NUL. -/
def cstrEq : List Nat → List Nat → Bool
  | [], b => b.headD 0 = 0
  | x :: xs, b =>
    if x ≠ b.headD 0 then false
    else if x = 0 then true
    else cstrEq xs b.tail

/-- Modelled from the spec (`stricmp` from the string utilities, not
under `src/`), as the equality test `stricmp(a, b) == 0`: like
`cstrEq` but comparing `tolower` of each byte (case-insensitive). -/
def cstriEq : List Nat → List Nat → Bool
  | [], b => ctolower (b.headD 0) = 0
  | x :: xs, b =>
    if ctolower x ≠ ctolower (b.headD 0) then false
    else if ctolower x = 0 then true
    else cstriEq xs b.tail

/-! ## Path resolution (`fat_search_entry`) -/

/-- `fat_search_ctx` (without the embedded walk context, which is
threaded separately).  `path` is the cursor into the path (the bytes
still to be consumed; the end of the list is the terminating NUL);
`pc` is the current component buffer contents (`pcl = pc.length`,
including the NUL stored by `fat_fetch_next_component`). -/
structure SearchCtx where
  path : List Nat
  pc : List Nat
  single_comp : Bool
  subdir_cluster : Nat
  not_dir : Bool
  result : Option Nat
deriving DecidableEq

/-- `fat_fetch_next_component` from `src/common/fat32_base.c`: copy
path bytes into `pc` until a `/` or the end of the string, append a
NUL, and report whether `pcl != 0`. -/
def fat_fetch_next_component (ctx : SearchCtx) : SearchCtx × Bool :=
  let stayp : Nat → Bool := fun b => ¬ (b = 0 ∨ b = 47)
  let comp := ctx.path.takeWhile stayp
  let path' := ctx.path.dropWhile stayp
  let pc' := comp ++ [0]
  ({ ctx with path := path', pc := pc' }, pc'.length ≠ 0)

/-- The comparison step of `fat_search_entry_cb`: the current
component is compared against the long name when one is present with
the case-sensitive `strcmp`, and against the decoded short name when
none is present with the case-insensitive `stricmp`. -/
def componentMatches (img : Img) (addr : Nat) (long_name : Option (List Nat))
    (pc : List Nat) : Bool :=
  match long_name with
  | some ln => cstrEq ln pc
  | none => cstriEq (fat_get_short_name img addr) pc

/-- `fat_search_entry_cb` from `src/common/fat32_base.c`: the walker
callback used for path resolution.  (The `ASSERT(*ctx->path == '/')`
before the cursor increment is a no-op here; it is implied by how
components are fetched.) -/
def fat_search_entry_cb (img : Img) (_hdr : FatHeader) (_ft : FatType)
    (addr : Nat) (long_name : Option (List Nat)) (ctx : SearchCtx) :
    SearchCtx × Int :=
  let fr := if ctx.pc.length = 0 then fat_fetch_next_component ctx else (ctx, true)
  let ctx := fr.1
  if ¬ fr.2 then
    -- the path was empty, so no path component has been fetched
    (ctx, -1)
  else
    if componentMatches img addr long_name ctx.pc = false then (ctx, 0)
    else if ctx.single_comp ∨ ctx.path.headD 0 = 0 then
      ({ ctx with result := some addr }, -1)
    else
      let ctx := { ctx with path := ctx.path.tail }
      if ctx.path.headD 0 = 0 then
        -- the path just ended with '/'
        if entryDirectory img addr then ({ ctx with result := some addr }, -1)
        else ({ ctx with not_dir := true }, -1)
      else if ¬ entryDirectory img addr then (ctx, -1)
      else
        ({ ctx with pc := [], subdir_cluster := fat_get_first_cluster img addr }, -1)

/-- `fat_init_search_ctx` from `src/common/fat32_base.c`: the context
is zeroed (so the embedded walk context starts with checksum 0 and
`is_valid = false`), then the path and `single_comp` are set. -/
def fat_init_search_ctx (path : List Nat) (single_comp : Bool) :
    SearchCtx × WalkCtx :=
  ({ path := path, pc := [], single_comp := single_comp,
     subdir_cluster := 0, not_dir := false, result := none },
   { lname_buf := [], lname_chksum := 0, is_valid := false })

/-- The `while (ctx.subdir_cluster)` descent loop of
`fat_search_entry`, with `fuel` bounding the number of descents. -/
def fat_search_entry_loop (hdr : FatHeader) (img : Img) (ft : FatType)
    (walkFuel : Nat) : Nat → WalkCtx → SearchCtx → Option SearchCtx
  | 0, _, _ => none
  | n + 1, wctx, ctx =>
    if ctx.subdir_cluster = 0 then some ctx
    else
      let cluster := ctx.subdir_cluster
      let ctx' := { ctx with subdir_cluster := 0 }
      match fat_walk_directory wctx hdr img ft none cluster
          (fat_search_entry_cb img) ctx' walkFuel with
      | none => none
      | some (wctx', ctx'', _) =>
        fat_search_entry_loop hdr img ft walkFuel n wctx' ctx''

/-- The `*err` assignment at the end of `fat_search_entry`:
`-20` (`-ENOTDIR`) when `not_dir` is set, else `-2` (`-ENOENT`) when
there is no result, else `0`. -/
def fat_search_entry_errno (ctx : SearchCtx) : Int :=
  if ctx.not_dir then -20 else if ctx.result = none then -2 else 0

/-- `fat_search_entry` from `src/common/fat32_base.c`.  Returns
`some (entry_or_null, err)` where `err` is `none` when the C code
leaves `*err` unwritten (the `"/"` early return) and `some e` when it
writes `e ∈ {0, -2, -20}`. -/
def fat_search_entry (hdr : FatHeader) (img : Img) (ft : FatType)
    (abspath : List Nat) (fuel : Nat) : Option (Option Nat × Option Int) :=
  let ft := if ft = fat_unknown then fat_get_type hdr else ft
  let path := abspath.tail
  let rd := fat_get_rootdir hdr ft
  if path.headD 0 = 0 then
    -- the whole abspath was just '/'
    some (some rd.1, none)
  else
    let ic := fat_init_search_ctx path false
    match fat_walk_directory ic.2 hdr img ft (some rd.1) rd.2
        (fat_search_entry_cb img) ic.1 fuel with
    | none => none
    | some (wctx1, ctx1, _) =>
      match fat_search_entry_loop hdr img ft fuel fuel wctx1 ctx1 with
      | none => none
      | some ctx2 => some (ctx2.result, some (fat_search_entry_errno ctx2))

/-! ## File reading (`fat_read_whole_file`) -/

/-- The abort/corruption outcomes of `fat_read_whole_file`:
`eoc` = end-of-chain hit while bytes remain (`NOT_REACHED()`),
`bad` = bad-cluster value (`ASSERT`), `unsupported` = the FAT-entry
read itself hit the FAT12 `NOT_REACHED()`, `fuel` = chain fuel
exhausted (the C loop would still be running). -/
inductive ReadErr where
  | eoc : ReadErr
  | bad : ReadErr
  | unsupported : ReadErr
  | fuel : ReadErr
deriving DecidableEq

/-- The `do { ... } while (written < fsize)` loop of
`fat_read_whole_file`.  The accumulator holds the bytes written so far
(`written = acc.length`); the result is the full destination contents
on success. -/
def fat_read_whole_file_loop (hdr : FatHeader) (img : Img) (ft : FatType)
    (cs fsize : Nat) : Nat → Nat → List Nat → Except ReadErr (List Nat)
  | 0, _, _ => .error .fuel
  | fuel + 1, cluster, acc =>
    let data := fat_get_pointer_to_cluster_data hdr cluster
    let rem := fsize - acc.length
    if rem ≤ cs then
      -- read what is needed, then break
      .ok (acc ++ (List.range rem).map fun k => u8v img (data + k))
    else
      -- read the whole cluster
      let acc' := acc ++ (List.range cs).map fun k => u8v img (data + k)
      match fat_read_fat_entry hdr img ft cluster 0 with
      | none => .error .unsupported
      | some fatval =>
        if fat_is_end_of_clusterchain ft fatval then .error .eoc
        else if fat_is_bad_cluster ft fatval then .error .bad
        else if acc'.length < fsize then
          fat_read_whole_file_loop hdr img ft cs fsize fuel fatval acc'
        else .ok acc'

/-- `fat_read_whole_file` from `src/common/fat32_base.c`, returning the
bytes copied into the destination buffer.  The
`ASSERT(entry->DIR_FileSize <= dest_buf_size)` precondition appears as
a hypothesis of the theorems about it. -/
def fat_read_whole_file (hdr : FatHeader) (img : Img) (entryAddr : Nat)
    (fuel : Nat) : Except ReadErr (List Nat) :=
  let cs := hdr.BPB_SecPerClus * hdr.BPB_BytsPerSec
  let fsize := entryFileSize img entryAddr
  let ft := fat_get_type hdr
  let cluster := fat_get_first_cluster img entryAddr
  fat_read_whole_file_loop hdr img ft cs fsize fuel cluster []

/-- The cluster reached after following `k` FAT links from `c`:
`none` when a link is missing (FAT12), end-of-chain, or bad. -/
def nthChainCluster (hdr : FatHeader) (img : Img) (ft : FatType) :
    Nat → Nat → Option Nat
  | c, 0 => some c
  | c, k + 1 =>
    match fat_read_fat_entry hdr img ft c 0 with
    | none => none
    | some v =>
      if fat_is_end_of_clusterchain ft v ∨ fat_is_bad_cluster ft v then none
      else nthChainCluster hdr img ft v k

/-- Whether every (low, high) unit pair actually scanned by
`fat_handle_long_dir_entry` — those up to and including the first
`0x00`/`0xFF` low-byte padding terminator — has a zero high byte.
Units after the terminator are not inspected by the code. -/
def scannedHighOK : List (Nat × Nat) → Bool
  | [] => true
  | (lo, hi) :: rest =>
    hi == 0 && (lo == 0 || lo == 0xFF || scannedHighOK rest)

/-! ## Concrete test volumes

Byte-level images used to evaluate the embedded code on concrete
inputs; `mkShortSlot`/`mkLongSlot` lay out 32-byte directory slots at
their `struct fat_entry` / `struct fat_long_entry` offsets. -/

/-- Little-endian bytes of a 16-bit value. -/
def bytes16 (x : Nat) : List Nat := [x % 256, x / 256 % 256]

/-- Little-endian bytes of a 32-bit value. -/
def bytes32 (x : Nat) : List Nat :=
  [x % 256, x / 256 % 256, x / 65536 % 256, x / 16777216 % 256]

/-- A 32-byte short directory slot: 11 name bytes, `DIR_Attr`,
`DIR_NTRes`, zeroed times, `DIR_FstClusHI`, `DIR_FstClusLO`,
`DIR_FileSize`. -/
def mkShortSlot (name : List Nat) (attr ntres clusHi clusLo fsize : Nat) :
    List Nat :=
  name.take 11 ++ [attr, ntres, 0, 0, 0, 0, 0, 0, 0] ++ bytes16 clusHi ++
    [0, 0, 0, 0] ++ bytes16 clusLo ++ bytes32 fsize

/-- A 32-byte VFAT long-name slot holding the 13 (low, high) UTF-16
unit pairs, with the long-name attribute `0x0F` and the given
checksum. -/
def mkLongSlot (ord : Nat) (units : List (Nat × Nat)) (chksum : Nat) :
    List Nat :=
  [ord] ++ ((units.take 5).map fun p => [p.1, p.2]).flatten ++
    [0x0F, 0, chksum] ++
    (((units.drop 5).take 6).map fun p => [p.1, p.2]).flatten ++
    [0, 0] ++
    ((units.drop 11).map fun p => [p.1, p.2]).flatten

/-- FAT16-style header for the directory-walk volumes: 512-byte
sectors, 1 sector per cluster, 1 reserved sector, no FATs, so the
FAT16 flat root directory sits at sector 1 (byte 512). -/
def hdr16 : FatHeader :=
  { BPB_BytsPerSec := 512, BPB_SecPerClus := 1, BPB_RsvdSecCnt := 1,
    BPB_NumFATs := 0, BPB_RootEntCnt := 16, BPB_TotSec16 := 100,
    BPB_FATSz16 := 1, BPB_TotSec32 := 0, BPB_FATSz32 := 0,
    BPB_RootClus := 0 }

/-- Volume A: a root directory with a live entry `A`, a deleted slot
(first name byte `0xE5`), a live entry `B`, and the end-of-entries
sentinel. -/
def volA : List Nat :=
  List.replicate 512 0 ++
    mkShortSlot (65 :: List.replicate 10 32) 0x20 0 0 0 0 ++
    mkShortSlot (0xE5 :: List.replicate 10 32) 0x20 0 0 0 0 ++
    mkShortSlot (66 :: List.replicate 10 32) 0x20 0 0 0 0 ++
    List.replicate 32 0

def imgA : Img := fun i => volA.getD i 0

/-- A counting callback: ignores the entry and increments its state. -/
def cbCount : FatHeader → FatType → Nat → Option (List Nat) → Nat → Nat × Int :=
  fun _ _ _ _ n => (n + 1, 0)

/-- A recording callback: appends (slot offset, delivered long name). -/
def cbRecord : FatHeader → FatType → Nat → Option (List Nat) →
    List (Nat × Option (List Nat)) → List (Nat × Option (List Nat)) × Int :=
  fun _ _ addr ln l => (l ++ [(addr, ln)], 0)

/-- The 13 UTF-16 units of the long name `Abc.txt`, NUL-terminated and
`0xFFFF`-padded. -/
def unitsAbc : List (Nat × Nat) :=
  [(65, 0), (98, 0), (99, 0), (46, 0), (116, 0), (120, 0), (116, 0),
   (0, 0), (255, 255), (255, 255), (255, 255), (255, 255), (255, 255)]

/-- Volume B: a root directory with the long-name chain `Abc.txt`
(checksum 209) followed by its short entry `ABC     TXT`, a
short-only entry `DEF     TXT`, and the sentinel. -/
def volB : List Nat :=
  List.replicate 512 0 ++
    mkLongSlot 0x41 unitsAbc 209 ++
    mkShortSlot [65, 66, 67, 32, 32, 32, 32, 32, 84, 88, 84] 0x20 0 0 0 0 ++
    mkShortSlot [68, 69, 70, 32, 32, 32, 32, 32, 84, 88, 84] 0x20 0 0 0 0 ++
    List.replicate 32 0

def imgB : Img := fun i => volB.getD i 0

/-- The 13 units of volume C's long-name slot: `A`, then the `0x0000`
terminator, then a unit with a nonzero HIGH byte (`0x00AB`) that the
scanning loops never reach, then `0xFFFF` padding. -/
def unitsC : List (Nat × Nat) :=
  [(65, 0), (0, 0), (0, 0xAB), (255, 255), (255, 255), (255, 255),
   (255, 255), (255, 255), (255, 255), (255, 255), (255, 255), (255, 255),
   (255, 255)]

/-- Volume C: the long-name slot of `unitsC` (checksum 128) followed by
its short entry `A          ` and the sentinel. -/
def volC : List Nat :=
  List.replicate 512 0 ++
    mkLongSlot 0x41 unitsC 128 ++
    mkShortSlot (65 :: List.replicate 10 32) 0x20 0 0 0 0 ++
    List.replicate 32 0

def imgC : Img := fun i => volC.getD i 0

/-- Header for the file-reading volume: 32-byte sectors, 1 sector per
cluster, 1 reserved sector, 1 FAT of 1 sector, no root entries; the
computed cluster count is 4998, so the volume classifies as FAT16. -/
def hdrD : FatHeader :=
  { BPB_BytsPerSec := 32, BPB_SecPerClus := 1, BPB_RsvdSecCnt := 1,
    BPB_NumFATs := 1, BPB_RootEntCnt := 0, BPB_TotSec16 := 5000,
    BPB_FATSz16 := 1, BPB_TotSec32 := 0, BPB_FATSz32 := 0,
    BPB_RootClus := 0 }

/-- Volume D: sector 0 empty, FAT at sector 1 (cluster 2 chains to
cluster 3), cluster 2 holding bytes 100.., cluster 3 holding bytes
150.., and at byte 192 a directory entry for a 40-byte file starting
at cluster 2. -/
def volD : List Nat :=
  List.replicate 32 0 ++
    ([0, 0, 0, 0, 3, 0] ++ List.replicate 26 0) ++
    ((List.range 32).map fun k => 100 + k) ++
    ((List.range 32).map fun k => 150 + k) ++
    List.replicate 64 0 ++
    mkShortSlot (70 :: List.replicate 10 32) 0x20 0 0 2 40

def imgD : Img := fun i => volD.getD i 0

/-- Volume E: like volume D but the FAT entry of cluster 2 is the
end-of-chain value `0xFFF8`, so reading the 40-byte file hits
end-of-chain while 8 bytes are still owed. -/
def volE : List Nat :=
  List.replicate 32 0 ++
    ([0, 0, 0, 0, 0xF8, 0xFF] ++ List.replicate 26 0) ++
    ((List.range 32).map fun k => 100 + k) ++
    ((List.range 32).map fun k => 150 + k) ++
    List.replicate 64 0 ++
    mkShortSlot (70 :: List.replicate 10 32) 0x20 0 0 2 40

def imgE : Img := fun i => volE.getD i 0

/-- Following the spec's words for the path-resolution callback with
the empty-component early return removed: `fat_fetch_next_component`
always stores at least the NUL terminator, so the spec describes the
callback as proceeding directly to the comparison.  Used to state that
the early-return branch of `fat_search_entry_cb` is unreachable. -/
def fat_search_entry_cb_total (img : Img) (_hdr : FatHeader) (_ft : FatType)
    (addr : Nat) (long_name : Option (List Nat)) (ctx : SearchCtx) :
    SearchCtx × Int :=
  let fr := if ctx.pc.length = 0 then fat_fetch_next_component ctx else (ctx, true)
  let ctx := fr.1
  if componentMatches img addr long_name ctx.pc = false then (ctx, 0)
  else if ctx.single_comp ∨ ctx.path.headD 0 = 0 then
    ({ ctx with result := some addr }, -1)
  else
    let ctx := { ctx with path := ctx.path.tail }
    if ctx.path.headD 0 = 0 then
      if entryDirectory img addr then ({ ctx with result := some addr }, -1)
      else ({ ctx with not_dir := true }, -1)
    else if ¬ entryDirectory img addr then (ctx, -1)
    else
      ({ ctx with pc := [], subdir_cluster := fat_get_first_cluster img addr }, -1)

/-- The bytes of a path literal. -/
def strB (s : String) : List Nat := s.toList.map Char.toNat

/-- The expected contents of volume D's 40-byte file: all of cluster 2
followed by the first 8 bytes of cluster 3. -/
def outD : List Nat :=
  ((List.range 32).map fun k => 100 + k) ++ ((List.range 8).map fun k => 150 + k)

/-- The expected outcome of walking volume B's root directory with the
recording callback: the `ABC     TXT` entry at byte 544 delivered with
the long name `Abc.txt`, the `DEF     TXT` entry at byte 576 delivered
with no long name, return value 0. -/
def walkResB : WalkCtx × List (Nat × Option (List Nat)) × Int :=
  (⟨[], -1, true⟩, [(544, some [65, 98, 99, 46, 116, 120, 116]), (576, none)], 0)

/-! ## Theorems -/

theorem checksum_step_eq_rotate (s b : Nat) (hs : s < 256) :
    checksum_step s b = (rotate_right_u8 s + b) % 256 := by
  unfold checksum_step rotate_right_u8
  rcases Nat.mod_two_eq_zero_or_one s with h | h <;>
    · simp [h, Nat.mod_eq_of_lt hs]
      try ring_nf

theorem foldl_checksum_eq_rotate (l : List Nat) :
    ∀ s : Nat, s < 256 →
      l.foldl checksum_step s = l.foldl (fun sum b => (rotate_right_u8 sum + b) % 256) s := by
  induction l with
  | nil => intro s _; rfl
  | cons b t ih =>
    intro s hs
    simp only [List.foldl_cons]
    rw [checksum_step_eq_rotate s b hs]
    exact ih _ (Nat.mod_lt _ (by norm_num))

/-- C7: the short-name checksum over the 11-byte 8.3 name equals the
fold starting from 0 whose step is `sum = rotate_right_u8(sum) + byte`,
truncated to 8 bits. -/
theorem shortname_checksum_is_rotate_add_fold (name : List Nat) :
    shortname_checksum name =
      (name.take 11).foldl (fun sum b => (rotate_right_u8 sum + b) % 256) 0 := by
  unfold shortname_checksum
  exact foldl_checksum_eq_rotate _ 0 (by norm_num)

/-- C4: the FAT type classification is total (never `fat_unknown`),
depends only on the computed cluster count, and uses exactly the
`< 4085` / `< 65525` thresholds. -/
theorem fat_get_type_classifies (hdr : FatHeader) :
    fat_get_type hdr ≠ fat_unknown ∧
    (fat_get_type hdr = fat12_type ↔ fat_countof_clusters hdr < 4085) ∧
    (fat_get_type hdr = fat16_type ↔
      4085 ≤ fat_countof_clusters hdr ∧ fat_countof_clusters hdr < 65525) ∧
    (fat_get_type hdr = fat32_type ↔ 65525 ≤ fat_countof_clusters hdr) ∧
    (∀ hdr2, fat_countof_clusters hdr = fat_countof_clusters hdr2 →
      fat_get_type hdr = fat_get_type hdr2) := by
  have hres : ∀ h2 : FatHeader, fat_get_type h2 =
      if fat_countof_clusters h2 < 4085 then fat12_type
      else if fat_countof_clusters h2 < 65525 then fat16_type
      else fat32_type := fun _ => rfl
  refine ⟨?_, ?_, ?_, ?_, ?_⟩
  · rw [hres]; split_ifs <;> simp
  · rw [hres]; split_ifs <;> simp <;> omega
  · rw [hres]; split_ifs <;> simp <;> omega
  · rw [hres]; split_ifs <;> simp <;> omega
  · intro hdr2 h
    rw [hres, hres, h]

/-- Witness for C4: instantiating the classification at a concrete
header (volume D's header, cluster count 4998, classified FAT16) and
discharging the dependence-only hypothesis. -/
theorem fat_get_type_classifies_witness :
    (fat_get_type hdrD = fat16_type ↔
      4085 ≤ fat_countof_clusters hdrD ∧ fat_countof_clusters hdrD < 65525) ∧
    fat_countof_clusters hdrD = fat_countof_clusters hdrD ∧
    fat_get_type hdrD = fat_get_type hdrD :=
  ⟨(fat_get_type_classifies hdrD).2.2.1,
   rfl,
   (fat_get_type_classifies hdrD).2.2.2.2 hdrD rfl⟩

theorem fat_addr_arith (A off bps : Nat) :
    (A + off / bps) * bps + off % bps = A * bps + off := by
  rw [add_mul, add_assoc, Nat.div_add_mod']

theorem le16_lt (img : Img) (a : Nat) : le16 img a < 65536 := by
  unfold le16 u8v
  have h1 := Nat.mod_lt (img a) (show 0 < 256 by norm_num)
  have h2 := Nat.mod_lt (img (a + 1)) (show 0 < 256 by norm_num)
  omega

/-- C6: the FAT-entry reader fetches the entry at byte offset `N*2`
(FAT16) or `N*4` (FAT32) from the start of FAT number `f`, which
itself starts at byte `(f*fat_size + reserved) * bytes_per_sector`;
the value is zero-extended to 32 bits (FAT16) or masked to 28 bits
(FAT32); FAT12 is unreachable (`none`); an unknown FAT type triggers
classification first. -/
theorem fat_read_fat_entry_spec (hdr : FatHeader) (img : Img) (N f : Nat)
    (_hN : 2 ≤ N) (_hf : f < hdr.BPB_NumFATs) :
    fat_read_fat_entry hdr img fat16_type N f =
      some (le16 img
        ((f * fat_get_FATSz hdr + hdr.BPB_RsvdSecCnt) * hdr.BPB_BytsPerSec + N * 2)) ∧
    fat_read_fat_entry hdr img fat32_type N f =
      some (le32 img
        ((f * fat_get_FATSz hdr + hdr.BPB_RsvdSecCnt) * hdr.BPB_BytsPerSec + N * 4)
        &&& 0x0FFFFFFF) ∧
    (∀ v, fat_read_fat_entry hdr img fat16_type N f = some v → v < 4294967296) ∧
    (∀ v, fat_read_fat_entry hdr img fat32_type N f = some v → v < 268435456) ∧
    fat_read_fat_entry hdr img fat12_type N f = none ∧
    fat_read_fat_entry hdr img fat_unknown N f =
      fat_read_fat_entry hdr img (fat_get_type hdr) N f := by
  have h16 : fat_read_fat_entry hdr img fat16_type N f =
      some (le16 img
        ((f * fat_get_FATSz hdr + hdr.BPB_RsvdSecCnt + N * 2 / hdr.BPB_BytsPerSec) *
            hdr.BPB_BytsPerSec + N * 2 % hdr.BPB_BytsPerSec)) := rfl
  have h32 : fat_read_fat_entry hdr img fat32_type N f =
      some (le32 img
        ((f * fat_get_FATSz hdr + hdr.BPB_RsvdSecCnt + N * 4 / hdr.BPB_BytsPerSec) *
            hdr.BPB_BytsPerSec + N * 4 % hdr.BPB_BytsPerSec)
        &&& 0x0FFFFFFF) := rfl
  refine ⟨?_, ?_, ?_, ?_, rfl, ?_⟩
  · rw [h16, fat_addr_arith]
  · rw [h32, fat_addr_arith]
  · intro v hv
    rw [h16] at hv
    have := le16_lt img
      ((f * fat_get_FATSz hdr + hdr.BPB_RsvdSecCnt + N * 2 / hdr.BPB_BytsPerSec) *
          hdr.BPB_BytsPerSec + N * 2 % hdr.BPB_BytsPerSec)
    injection hv with hv
    omega
  · intro v hv
    rw [h32] at hv
    injection hv with hv
    have hle : le32 img
        ((f * fat_get_FATSz hdr + hdr.BPB_RsvdSecCnt + N * 4 / hdr.BPB_BytsPerSec) *
            hdr.BPB_BytsPerSec + N * 4 % hdr.BPB_BytsPerSec)
        &&& 0x0FFFFFFF ≤ 0x0FFFFFFF := Nat.and_le_right
    omega
  · have hne := (fat_get_type_classifies hdr).1
    unfold fat_read_fat_entry
    simp [hne]

/-- Witness for C6: volume D, cluster 2 of FAT 0; the reader fetches
the entry (value 3, the next cluster in the chain) at absolute byte
offset 36. -/
theorem fat_read_fat_entry_spec_witness :
    (2 ≤ 2 ∧ 0 < hdrD.BPB_NumFATs) ∧
    fat_read_fat_entry hdrD imgD fat16_type 2 0 =
      some (le16 imgD
        ((0 * fat_get_FATSz hdrD + hdrD.BPB_RsvdSecCnt) * hdrD.BPB_BytsPerSec + 2 * 2)) ∧
    fat_read_fat_entry hdrD imgD fat12_type 2 0 = none :=
  ⟨⟨by decide, by decide⟩,
   (fat_read_fat_entry_spec hdrD imgD 2 0 (by decide) (by decide)).1,
   (fat_read_fat_entry_spec hdrD imgD 2 0 (by decide) (by decide)).2.2.2.2.1⟩

theorem fat_fetch_next_component_snd (ctx : SearchCtx) :
    (fat_fetch_next_component ctx).2 = true := by
  unfold fat_fetch_next_component
  simp

/-- C10: `fat_fetch_next_component` always returns true (the appended
NUL makes `pcl ≥ 1` even at end-of-string), so the early-return branch
of `fat_search_entry_cb` that handles an empty fetched component is
unreachable: the callback coincides with its branch-free version. -/
theorem fat_fetch_next_component_always_true :
    (∀ ctx : SearchCtx, (fat_fetch_next_component ctx).2 = true ∧
      1 ≤ (fat_fetch_next_component ctx).1.pc.length) ∧
    (∀ (img : Img) (hdr : FatHeader) (ft : FatType) (addr : Nat)
        (ln : Option (List Nat)) (ctx : SearchCtx),
      fat_search_entry_cb img hdr ft addr ln ctx =
        fat_search_entry_cb_total img hdr ft addr ln ctx) := by
  constructor
  · intro ctx
    refine ⟨fat_fetch_next_component_snd ctx, ?_⟩
    unfold fat_fetch_next_component
    simp
  · intro img hdr ft addr ln ctx
    unfold fat_search_entry_cb fat_search_entry_cb_total
    by_cases h : ctx.pc.length = 0
    · simp [h, fat_fetch_next_component_snd ctx]
    · simp [h]

theorem walkSlots_ret_zero {σ : Type}
    (hdr : FatHeader) (img : Img) (ft : FatType)
    (cb : FatHeader → FatType → Nat → Option (List Nat) → σ → σ × Int) :
    ∀ (n base : Nat) (ctx : WalkCtx) (arg : σ) (out : WalkCtx × σ × Int),
      walkSlots hdr img ft cb base n ctx arg = Sum.inl out → out.2.2 = 0 := by
  intro n
  induction n with
  | zero => intro base ctx arg out h; simp [walkSlots] at h
  | succ m ih =>
    intro base ctx arg out h
    rw [walkSlots] at h
    split_ifs at h with h1 h2 h3 h4
    · exact ih _ _ _ _ h
    · exact ih _ _ _ _ h
    · cases h; rfl
    · cases h; rfl
    · set r := cb hdr ft base (deliveredLongName img ctx base) arg with hr
      by_cases h5 : r.2 ≠ 0
      · rw [if_pos h5] at h
        cases h; rfl
      · rw [if_neg h5] at h
        exact ih _ _ _ _ h

theorem walkChain_ret_zero {σ : Type}
    (hdr : FatHeader) (img : Img) (ft : FatType)
    (cb : FatHeader → FatType → Nat → Option (List Nat) → σ → σ × Int) :
    ∀ (fuel : Nat) (entry : Option Nat) (cluster : Nat) (ctx : WalkCtx)
      (arg : σ) (out : WalkCtx × σ × Int),
      walkChain hdr img ft cb fuel entry cluster ctx arg = some out →
      out.2.2 = 0 := by
  intro fuel
  induction fuel with
  | zero => intro entry cluster ctx arg out h; simp [walkChain] at h
  | succ m ih =>
    intro entry cluster ctx arg out h
    rw [walkChain] at h
    set entry' :=
      if cluster ≠ 0 then some (fat_get_pointer_to_cluster_data hdr cluster)
      else entry with he
    cases hE : entry' with
    | none => rw [hE] at h; simp at h
    | some base =>
      rw [hE] at h
      simp only [] at h
      cases hS : walkSlots hdr img ft cb base
          (hdr.BPB_BytsPerSec * hdr.BPB_SecPerClus / 32) ctx arg with
      | inl res =>
        rw [hS] at h
        simp only [Option.some.injEq] at h
        subst h
        exact walkSlots_ret_zero hdr img ft cb _ _ _ _ _ hS
      | inr p =>
        rw [hS] at h
        simp only [] at h
        split_ifs at h with h1
        · cases h; rfl
        · cases hR : fat_read_fat_entry hdr img ft cluster 0 with
          | none => rw [hR] at h; simp at h
          | some val =>
            rw [hR] at h
            simp only [] at h
            split_ifs at h with h2 h3
            · cases h; rfl
            · exact ih _ _ _ _ _ h

/-- C9: whenever `fat_walk_directory` returns (end-of-entries
sentinel, deleted-slot sentinel, callback-requested stop, exhausted
FAT16 flat root chunk, or end of the cluster chain), its return value
is 0; it never signals an error through its return value. -/
theorem fat_walk_directory_returns_zero {σ : Type}
    (ctx : WalkCtx) (hdr : FatHeader) (img : Img) (ft : FatType)
    (entry : Option Nat) (cluster : Nat)
    (cb : FatHeader → FatType → Nat → Option (List Nat) → σ → σ × Int)
    (arg : σ) (fuel : Nat) (out : WalkCtx × σ × Int)
    (h : fat_walk_directory ctx hdr img ft entry cluster cb arg fuel = some out) :
    out.2.2 = 0 := by
  unfold fat_walk_directory at h
  split_ifs at h with h1 h2
  exact walkChain_ret_zero hdr img ft cb _ _ _ _ _ _ h

set_option maxRecDepth 100000 in
/-- Witness for C9: a concrete walk over volume B (long-name chain,
two live entries, sentinel) returns and its return value is 0. -/
theorem fat_walk_directory_returns_zero_witness :
    fat_walk_directory ⟨[], 0, false⟩ hdr16 imgB fat16_type (some 512) 0
        cbRecord [] 2 = some walkResB ∧
    walkResB.2.2 = 0 := by
  constructor
  · decide
  · exact fat_walk_directory_returns_zero ⟨[], 0, false⟩ hdr16 imgB fat16_type
      (some 512) 0 cbRecord [] 2 walkResB (by decide)

set_option maxRecDepth 100000 in
/-- C1 counterexample: volume A's root directory holds a live entry, a
deleted slot (first name byte `0xE5`), and a second live entry; the
claim says the walker skips the deleted slot and delivers both live
entries, but the counting callback fires exactly once — the walker
stops at the deleted slot. -/
theorem walk_deleted_slot_counterexample :
    u8v imgA (512 + 32) = 0xE5 ∧
    fat_walk_directory ⟨[], 0, false⟩ hdr16 imgA fat16_type (some 512) 0
        cbCount 0 2 = some (⟨[], -1, false⟩, 1, 0) ∧
    (1 : Nat) ≠ 2 := by
  refine ⟨by decide, by decide, by decide⟩

/-- C1 (amended): a slot whose first name byte is `0xE5` terminates
the walk with return value 0 exactly like the `0x00` end-of-entries
sentinel (no callback for it and none after it); a deleted slot
between two live entries therefore yields a callback only for the
first live entry. -/
theorem walk_deleted_slot_terminates :
    (∀ (σ : Type) (hdr : FatHeader) (img : Img) (ft : FatType)
        (cb : FatHeader → FatType → Nat → Option (List Nat) → σ → σ × Int)
        (base n : Nat) (ctx : WalkCtx) (arg : σ),
      is_long_name_entry img base = false →
      entryVolumeId img base = false →
      u8v img base = 0xE5 →
      walkSlots hdr img ft cb base (n + 1) ctx arg = Sum.inl (ctx, arg, 0)) ∧
    (∀ (σ : Type) (hdr : FatHeader) (img : Img) (ft : FatType)
        (cb : FatHeader → FatType → Nat → Option (List Nat) → σ → σ × Int)
        (base n : Nat) (ctx : WalkCtx) (arg : σ),
      is_long_name_entry img base = false →
      entryVolumeId img base = false →
      u8v img base = 0x00 →
      walkSlots hdr img ft cb base (n + 1) ctx arg = Sum.inl (ctx, arg, 0)) := by
  constructor
  · intro σ hdr img ft cb base n ctx arg h1 h2 h3
    rw [walkSlots]
    simp [h1, h2, h3]
  · intro σ hdr img ft cb base n ctx arg h1 h2 h3
    rw [walkSlots]
    simp [h1, h2, h3]

set_option maxRecDepth 100000 in
/-- Witness for the amended C1: the deleted slot of volume A (byte
544) stops a slot scan immediately, and the full walk over volume A
with the recording callback delivers only the first live entry. -/
theorem walk_deleted_slot_terminates_witness :
    (is_long_name_entry imgA 544 = false ∧ entryVolumeId imgA 544 = false ∧
      u8v imgA 544 = 0xE5 ∧
      walkSlots hdr16 imgA fat16_type cbCount 544 15 ⟨[], -1, false⟩ 1 =
        Sum.inl (⟨[], -1, false⟩, 1, 0)) ∧
    (is_long_name_entry imgA 608 = false ∧ entryVolumeId imgA 608 = false ∧
      u8v imgA 608 = 0x00 ∧
      walkSlots hdr16 imgA fat16_type cbCount 608 13 ⟨[], -1, false⟩ 2 =
        Sum.inl (⟨[], -1, false⟩, 2, 0)) ∧
    fat_walk_directory ⟨[], 0, false⟩ hdr16 imgA fat16_type (some 512) 0
        cbRecord [] 2 = some (⟨[], -1, false⟩, [(512, none)], 0) := by
  refine ⟨⟨by decide, by decide, by decide, ?_⟩,
          ⟨by decide, by decide, by decide, ?_⟩, by decide⟩
  · exact walk_deleted_slot_terminates.1 Nat hdr16 imgA fat16_type cbCount
      544 14 ⟨[], -1, false⟩ 1 (by decide) (by decide) (by decide)
  · exact walk_deleted_slot_terminates.2 Nat hdr16 imgA fat16_type cbCount
      608 12 ⟨[], -1, false⟩ 2 (by decide) (by decide) (by decide)

theorem scanUnits_isSome (us : List (Nat × Nat)) :
    (scanUnits us).isSome = scannedHighOK us := by
  induction us with
  | nil => rfl
  | cons p rest ih =>
    obtain ⟨lo, hi⟩ := p
    rw [scanUnits, scannedHighOK]
    by_cases h1 : hi ≠ 0
    · rw [if_pos h1]
      have hb : (hi == 0) = false := by
        simp
        omega
      simp [hb]
    · push_neg at h1
      subst h1
      by_cases h2 : lo = 0 ∨ lo = 0xFF
      · rw [if_neg (by simp), if_pos h2]
        rcases h2 with h2 | h2 <;> subst h2 <;> simp
      · push_neg at h2
        rw [if_neg (by simp), if_neg (by tauto)]
        cases hR : scanUnits rest with
        | none =>
          rw [hR] at ih
          simp [h2.1, h2.2, ← ih]
        | some cs =>
          rw [hR] at ih
          simp [h2.1, h2.2, ← ih]

theorem appendChecked_mem :
    ∀ (l buf : List Nat) (c : Nat), c ∈ (appendChecked buf l).1 →
      c ∈ buf ∨ fat32_is_valid_filename_character c = true := by
  intro l
  induction l with
  | nil => intro buf c h; exact Or.inl h
  | cons x xs ih =>
    intro buf c h
    rw [appendChecked] at h
    by_cases hx : fat32_is_valid_filename_character x
    · rw [if_pos hx] at h
      rcases ih _ _ h with h' | h'
      · rcases List.mem_append.1 h' with h'' | h''
        · exact Or.inl h''
        · simp only [List.mem_singleton] at h''
          subst h''
          exact Or.inr hx
      · exact Or.inr h'
    · rw [if_neg hx] at h
      exact Or.inl h

theorem handle_long_chksum (img : Img) (ctx : WalkCtx) (addr : Nat) :
    (fat_handle_long_dir_entry img ctx addr).lname_chksum =
      (ldirChksum img addr : Int) := by
  simp only [fat_handle_long_dir_entry]
  by_cases h : ctx.lname_chksum ≠ (ldirChksum img addr : Int)
  · rw [if_pos h]
    cases hS : scanUnits (ldirUnits img addr) with
    | none => simp [hS]
    | some chars => simp [hS]
  · rw [if_neg h]
    push_neg at h
    by_cases hv : ctx.is_valid
    · cases hS : scanUnits (ldirUnits img addr) with
      | none => simp [hS, hv, h]
      | some chars => simp [hS, hv, h]
    · simp [hv, h]

set_option maxRecDepth 100000 in
/-- C8 counterexample: volume C's long-name slot carries a UTF-16 unit
with a nonzero high byte (`0x00AB`, unit index 2) sitting after the
`0x0000` terminator; the scanning loops never reach it, and the walker
still delivers the short entry with the non-null long name `A`. -/
theorem long_name_high_byte_counterexample :
    (ldirUnits imgC 512).getD 2 (0, 0) = (0, 0xAB) ∧
    (0xAB : Nat) ≠ 0 ∧
    fat_walk_directory ⟨[], 0, false⟩ hdr16 imgC fat16_type (some 512) 0
        cbRecord [] 2 = some (⟨[], -1, true⟩, [(544, some [65])], 0) := by
  exact ⟨by decide, by decide, by decide⟩

/-- C8 (amended): a non-null long name is delivered only when the
accumulated chain is coherent: after each processed slot the context
checksum equals that slot's `LDIR_Chksum` (so all slots of the live
chain agree), the delivered entry's short-name checksum equals the
context checksum, every accumulated character passed the filename
whitelist, and every UTF-16 unit *scanned* — up to and including the
slot's `0x00`/`0xFF` padding terminator — had a zero high byte (units
after the terminator are not inspected); any detected violation makes
the context invalid, forcing a null long name. -/
theorem long_name_delivery_conditions :
    (∀ (img : Img) (ctx : WalkCtx) (addr : Nat),
      (fat_handle_long_dir_entry img ctx addr).lname_chksum =
        (ldirChksum img addr : Int)) ∧
    (∀ (img : Img) (ctx : WalkCtx) (addr : Nat),
      (∀ c ∈ ctx.lname_buf, fat32_is_valid_filename_character c = true) →
      ∀ c ∈ (fat_handle_long_dir_entry img ctx addr).lname_buf,
        fat32_is_valid_filename_character c = true) ∧
    (∀ (img : Img) (ctx : WalkCtx) (addr : Nat),
      (fat_handle_long_dir_entry img ctx addr).is_valid = true →
      scannedHighOK (ldirUnits img addr) = true) ∧
    (∀ (img : Img) (ctx : WalkCtx) (addr : Nat) (L : List Nat),
      deliveredLongName img ctx addr = some L →
      ctx.is_valid = true ∧ ctx.lname_buf ≠ [] ∧
      ctx.lname_chksum = (shortname_checksum (dirName img addr) : Int) ∧
      L = ctx.lname_buf.reverse) := by
  refine ⟨handle_long_chksum, ?_, ?_, ?_⟩
  · intro img ctx addr hbuf c hc
    simp only [fat_handle_long_dir_entry] at hc
    by_cases h : ctx.lname_chksum ≠ (ldirChksum img addr : Int)
    · rw [if_pos h] at hc
      cases hS : scanUnits (ldirUnits img addr) with
      | none => simp [hS] at hc
      | some chars =>
        simp [hS] at hc
        rcases appendChecked_mem _ _ _ hc with h' | h'
        · simp at h'
        · exact h'
    · rw [if_neg h] at hc
      by_cases hv : ctx.is_valid
      · cases hS : scanUnits (ldirUnits img addr) with
        | none =>
          simp [hS, hv] at hc
          exact hbuf c hc
        | some chars =>
          simp [hS, hv] at hc
          rcases appendChecked_mem _ _ _ hc with h' | h'
          · exact hbuf c h'
          · exact h'
      · simp [hv] at hc
        exact hbuf c hc
  · intro img ctx addr hv
    rw [← scanUnits_isSome]
    simp only [fat_handle_long_dir_entry] at hv
    by_cases h : ctx.lname_chksum ≠ (ldirChksum img addr : Int)
    · rw [if_pos h] at hv
      cases hS : scanUnits (ldirUnits img addr) with
      | none => simp [hS] at hv
      | some chars => simp [hS]
    · rw [if_neg h] at hv
      by_cases hvv : ctx.is_valid
      · cases hS : scanUnits (ldirUnits img addr) with
        | none => simp [hS, hvv] at hv
        | some chars => simp [hS]
      · simp [hvv] at hv
  · intro img ctx addr L hL
    unfold deliveredLongName at hL
    split_ifs at hL with h
    · obtain ⟨h1, h2, h3⟩ := h
      refine ⟨h2, ?_, h3, ?_⟩
      · intro he
        rw [he] at h1
        simp at h1
      · injection hL with hL
        exact hL.symm

set_option maxRecDepth 100000 in
/-- Witness for the amended C8: volume B's long-name slot (byte 512)
processed from the reset context, and the delivery condition at its
short entry (byte 544). -/
theorem long_name_delivery_conditions_witness :
    (fat_handle_long_dir_entry imgB ⟨[], -1, false⟩ 512).lname_chksum =
      (ldirChksum imgB 512 : Int) ∧
    (∀ c ∈ (fat_handle_long_dir_entry imgB ⟨[], -1, false⟩ 512).lname_buf,
      fat32_is_valid_filename_character c = true) ∧
    scannedHighOK (ldirUnits imgB 512) = true ∧
    ((⟨[116, 120, 116, 46, 99, 98, 65], 209, true⟩ : WalkCtx).is_valid = true ∧
      (⟨[116, 120, 116, 46, 99, 98, 65], 209, true⟩ : WalkCtx).lname_buf ≠ [] ∧
      (⟨[116, 120, 116, 46, 99, 98, 65], 209, true⟩ : WalkCtx).lname_chksum =
        (shortname_checksum (dirName imgB 544) : Int) ∧
      [65, 98, 99, 46, 116, 120, 116] =
        (⟨[116, 120, 116, 46, 99, 98, 65], 209, true⟩ : WalkCtx).lname_buf.reverse) :=
  ⟨long_name_delivery_conditions.1 imgB ⟨[], -1, false⟩ 512,
   long_name_delivery_conditions.2.1 imgB ⟨[], -1, false⟩ 512 (by simp),
   long_name_delivery_conditions.2.2.1 imgB ⟨[], -1, false⟩ 512 (by decide),
   long_name_delivery_conditions.2.2.2 imgB
     ⟨[116, 120, 116, 46, 99, 98, 65], 209, true⟩ 544
     [65, 98, 99, 46, 116, 120, 116] (by decide)⟩

set_option maxRecDepth 1000000 in
/-- C2: `fat_search_entry` on `"/"` returns the root-directory entry
(leaving `*err` unwritten); a matched final component with no trailing
`/` stores the entry (errno 0 via the errno mapping); a matched final
component followed by a bare trailing `/` on a non-directory sets
`not_dir` and stores no entry; the errno mapping reports `-20`
(`-ENOTDIR`) when `not_dir` is set and `-2` (`-ENOENT`) when there is
no result and `not_dir` is clear.  Demonstrated end-to-end on volume
B. -/
theorem fat_search_entry_errors
    (hdr : FatHeader) (img : Img) (ft : FatType) (fuel : Nat)
    (addr : Nat) (ln : Option (List Nat)) (ctx : SearchCtx) :
    (fat_search_entry hdr img ft [47] fuel =
      some (some (fat_get_rootdir hdr
        (if ft = fat_unknown then fat_get_type hdr else ft)).1, none)) ∧
    (ctx.pc.length ≠ 0 →
      componentMatches img addr ln ctx.pc = true →
      ctx.single_comp = false →
      ctx.path.headD 0 = 0 →
      fat_search_entry_cb img hdr ft addr ln ctx =
        ({ ctx with result := some addr }, -1)) ∧
    (ctx.pc.length ≠ 0 →
      componentMatches img addr ln ctx.pc = true →
      ctx.single_comp = false →
      ctx.path.headD 0 = 47 →
      ctx.path.tail.headD 0 = 0 →
      entryDirectory img addr = false →
      fat_search_entry_cb img hdr ft addr ln ctx =
        ({ ctx with path := ctx.path.tail, not_dir := true }, -1)) ∧
    ((ctx.not_dir = true → fat_search_entry_errno ctx = -20) ∧
     (ctx.not_dir = false → ctx.result = none → fat_search_entry_errno ctx = -2) ∧
     (ctx.not_dir = false → ctx.result ≠ none → fat_search_entry_errno ctx = 0)) ∧
    (fat_search_entry hdr16 imgB fat16_type (strB "/Abc.txt") 4 =
        some (some 544, some 0) ∧
      fat_search_entry hdr16 imgB fat16_type (strB "/Abc.txt/") 4 =
        some (none, some (-20)) ∧
      fat_search_entry hdr16 imgB fat16_type (strB "/zzz") 4 =
        some (none, some (-2))) := by
  refine ⟨rfl, ?_, ?_, ⟨?_, ?_, ?_⟩, by decide, by decide, by decide⟩
  · intro hpc hm hs hp
    simp only [fat_search_entry_cb]
    rw [if_neg hpc]
    simp only [hm, hp, hs]
    simp
  · intro hpc hm hs hp47 hp2 hd
    simp only [fat_search_entry_cb]
    rw [if_neg hpc]
    simp only [hm, hp47, hs, hp2, hd]
    simp
  · intro h
    simp [fat_search_entry_errno, h]
  · intro h1 h2
    simp [fat_search_entry_errno, h1, h2]
  · intro h1 h2
    simp [fat_search_entry_errno, h1, h2]

set_option maxRecDepth 1000000 in
/-- Witness for C2: the callback cases instantiated on volume B's
`ABC     TXT` entry (byte 544), with the component `Abc.txt` already
fetched. -/
theorem fat_search_entry_errors_witness :
    (([47] : List Nat) ≠ [] ∧
      fat_search_entry_cb imgB hdr16 fat16_type 544
          (some [65, 98, 99, 46, 116, 120, 116])
          ⟨[], [65, 98, 99, 46, 116, 120, 116, 0], false, 0, false, none⟩ =
        (⟨[], [65, 98, 99, 46, 116, 120, 116, 0], false, 0, false, some 544⟩, -1)) ∧
    fat_search_entry_cb imgB hdr16 fat16_type 544
        (some [65, 98, 99, 46, 116, 120, 116])
        ⟨[47], [65, 98, 99, 46, 116, 120, 116, 0], false, 0, false, none⟩ =
      (⟨[], [65, 98, 99, 46, 116, 120, 116, 0], false, 0, true, none⟩, -1) ∧
    fat_search_entry_errno
        ⟨[], [65, 98, 99, 46, 116, 120, 116, 0], false, 0, true, none⟩ = -20 := by
  refine ⟨⟨by decide, ?_⟩, ?_, ?_⟩
  · exact (fat_search_entry_errors hdr16 imgB fat16_type 4 544
      (some [65, 98, 99, 46, 116, 120, 116])
      ⟨[], [65, 98, 99, 46, 116, 120, 116, 0], false, 0, false, none⟩).2.1
      (by decide) (by decide) (by decide) (by decide)
  · exact (fat_search_entry_errors hdr16 imgB fat16_type 4 544
      (some [65, 98, 99, 46, 116, 120, 116])
      ⟨[47], [65, 98, 99, 46, 116, 120, 116, 0], false, 0, false, none⟩).2.2.1
      (by decide) (by decide) (by decide) (by decide) (by decide) (by decide)
  · exact (fat_search_entry_errors hdr16 imgB fat16_type 4 544
      (some [65, 98, 99, 46, 116, 120, 116])
      ⟨[], [65, 98, 99, 46, 116, 120, 116, 0], false, 0, true, none⟩).2.2.2.1.1
      (by decide)

set_option maxRecDepth 1000000 in
/-- C3 counterexample: on volume B the file with long name `Abc.txt`
has the short alias `ABC     TXT` (decoded `ABC.TXT`); the alias even
in its exact stored case matches the short name case-insensitively,
yet looking it up fails with `-ENOENT`, because the entry is delivered
with its long name and only the case-sensitive long-name comparison is
performed — a short-alias lookup of a long-named file does not
succeed. -/
theorem search_short_alias_counterexample :
    cstriEq (fat_get_short_name imgB 544) (strB "ABC.TXT" ++ [0]) = true ∧
    fat_walk_directory ⟨[], 0, false⟩ hdr16 imgB fat16_type (some 512) 0
        cbRecord [] 2 = some walkResB ∧
    fat_search_entry hdr16 imgB fat16_type (strB "/ABC.TXT") 4 =
      some (none, some (-2)) :=
  ⟨by decide, by decide, by decide⟩

set_option maxRecDepth 1000000 in
/-- C3 (amended): the current component is compared against the long
name when one is delivered (case-sensitive `strcmp`) and against the
decoded short name only when no long name is delivered
(case-insensitive `stricmp`); hence a wrong-case lookup of a
long-named file fails with `-ENOENT`, and a short-name lookup succeeds
with any case only for entries delivered without a long name — for an
entry carrying a valid long name even the short-alias lookup fails. -/
theorem long_vs_short_name_comparison :
    (∀ (img : Img) (hdr : FatHeader) (ft : FatType) (addr : Nat)
        (ctx : SearchCtx), ctx.pc.length ≠ 0 →
      (∀ l, cstrEq l ctx.pc = false →
        fat_search_entry_cb img hdr ft addr (some l) ctx = (ctx, 0)) ∧
      (∀ l, cstrEq l ctx.pc = true →
        (fat_search_entry_cb img hdr ft addr (some l) ctx).2 = -1) ∧
      (cstriEq (fat_get_short_name img addr) ctx.pc = false →
        fat_search_entry_cb img hdr ft addr none ctx = (ctx, 0)) ∧
      (cstriEq (fat_get_short_name img addr) ctx.pc = true →
        (fat_search_entry_cb img hdr ft addr none ctx).2 = -1)) ∧
    (fat_search_entry hdr16 imgB fat16_type (strB "/Abc.txt") 4 =
        some (some 544, some 0) ∧
      fat_search_entry hdr16 imgB fat16_type (strB "/abc.txt") 4 =
        some (none, some (-2)) ∧
      fat_search_entry hdr16 imgB fat16_type (strB "/dEf.TxT") 4 =
        some (some 576, some 0)) := by
  refine ⟨?_, by decide, by decide, by decide⟩
  intro img hdr ft addr ctx hpc
  refine ⟨?_, ?_, ?_, ?_⟩
  · intro l hm
    simp only [fat_search_entry_cb]
    rw [if_neg hpc]
    simp only [componentMatches, hm]
    simp
  · intro l hm
    simp only [fat_search_entry_cb]
    rw [if_neg hpc]
    simp only [componentMatches, hm]
    simp only [Bool.true_eq_false, if_false, ite_false]
    split_ifs <;> rfl
  · intro hm
    simp only [fat_search_entry_cb]
    rw [if_neg hpc]
    simp only [componentMatches, hm]
    simp
  · intro hm
    simp only [fat_search_entry_cb]
    rw [if_neg hpc]
    simp only [componentMatches, hm]
    simp only [Bool.true_eq_false, if_false, ite_false]
    split_ifs <;> rfl

set_option maxRecDepth 1000000 in
/-- Witness for the amended C3: the comparison cases instantiated on
volume B's `DEF     TXT` entry (byte 576) with the component
`dEf.TxT`. -/
theorem long_vs_short_name_comparison_witness :
    (([100, 69, 102, 46, 84, 120, 84, 0] : List Nat).length ≠ 0 ∧
      cstrEq [65] [100, 69, 102, 46, 84, 120, 84, 0] = false ∧
      fat_search_entry_cb imgB hdr16 fat16_type 576 (some [65])
          ⟨[], [100, 69, 102, 46, 84, 120, 84, 0], false, 0, false, none⟩ =
        (⟨[], [100, 69, 102, 46, 84, 120, 84, 0], false, 0, false, none⟩, 0)) ∧
    (cstriEq (fat_get_short_name imgB 576) [100, 69, 102, 46, 84, 120, 84, 0] = true ∧
      (fat_search_entry_cb imgB hdr16 fat16_type 576 none
          ⟨[], [100, 69, 102, 46, 84, 120, 84, 0], false, 0, false, none⟩).2 = -1) := by
  refine ⟨⟨by decide, by decide, ?_⟩, ⟨by decide, ?_⟩⟩
  · exact (long_vs_short_name_comparison.1 imgB hdr16 fat16_type 576
      ⟨[], [100, 69, 102, 46, 84, 120, 84, 0], false, 0, false, none⟩
      (by decide)).1 [65] (by decide)
  · exact (long_vs_short_name_comparison.1 imgB hdr16 fat16_type 576
      ⟨[], [100, 69, 102, 46, 84, 120, 84, 0], false, 0, false, none⟩
      (by decide)).2.2.2 (by decide)

theorem getD_range_map (n : Nat) (f : Nat → Nat) (i : Nat) (h : i < n) :
    (((List.range n).map f).getD i 0) = f i := by
  rw [List.getD_eq_getElem?_getD, List.getElem?_map, List.getElem?_range h]
  rfl

theorem read_loop_ok (hdr : FatHeader) (img : Img) (ft : FatType)
    (cs fsize : Nat) (hcs : 0 < cs) :
    ∀ (fuel cluster : Nat) (acc out : List Nat),
      acc.length ≤ fsize →
      fat_read_whole_file_loop hdr img ft cs fsize fuel cluster acc = .ok out →
      out.length = fsize ∧ (∃ t, out = acc ++ t) ∧
      ∀ j, acc.length ≤ j → j < fsize →
        ∃ ck, nthChainCluster hdr img ft cluster ((j - acc.length) / cs) = some ck ∧
          out.getD j 0 =
            u8v img (fat_get_pointer_to_cluster_data hdr ck + (j - acc.length) % cs) := by
  intro fuel
  induction fuel with
  | zero =>
    intro cluster acc out hlen h
    simp [fat_read_whole_file_loop] at h
  | succ m ih =>
    intro cluster acc out hlen h
    rw [fat_read_whole_file_loop] at h
    by_cases hrem : fsize - acc.length ≤ cs
    · rw [if_pos hrem] at h
      simp only [Except.ok.injEq] at h
      subst h
      have hXlen : ((List.range (fsize - acc.length)).map fun k =>
          u8v img (fat_get_pointer_to_cluster_data hdr cluster + k)).length =
            fsize - acc.length := by simp
      refine ⟨by simp [hXlen]; omega, ⟨_, rfl⟩, ?_⟩
      intro j hj1 hj2
      refine ⟨cluster, ?_, ?_⟩
      · rw [Nat.div_eq_of_lt (by omega)]
        rfl
      · rw [List.getD_append_right _ _ _ _ hj1, getD_range_map _ _ _ (by omega),
          Nat.mod_eq_of_lt (by omega)]
    · rw [if_neg hrem] at h
      push_neg at hrem
      cases hread : fat_read_fat_entry hdr img ft cluster 0 with
      | none =>
        rw [hread] at h
        simp at h
      | some v =>
        rw [hread] at h
        simp only [] at h
        by_cases heoc : fat_is_end_of_clusterchain ft v = true
        · rw [if_pos heoc] at h
          simp at h
        · rw [if_neg heoc] at h
          by_cases hbad : fat_is_bad_cluster ft v = true
          · rw [if_pos hbad] at h
            simp at h
          · rw [if_neg hbad] at h
            have hXlen : ((List.range cs).map fun k =>
                u8v img (fat_get_pointer_to_cluster_data hdr cluster + k)).length =
                  cs := by simp
            have hacc' : (acc ++ (List.range cs).map fun k =>
                u8v img (fat_get_pointer_to_cluster_data hdr cluster + k)).length =
                  acc.length + cs := by simp
            rw [if_pos (by rw [hacc']; omega)] at h
            obtain ⟨h1, ⟨t, ht⟩, h3⟩ := ih v _ out (by rw [hacc']; omega) h
            rw [hacc'] at h3
            refine ⟨h1, ⟨((List.range cs).map fun k =>
              u8v img (fat_get_pointer_to_cluster_data hdr cluster + k)) ++ t,
              by rw [ht, List.append_assoc]⟩, ?_⟩
            intro j hj1 hj2
            by_cases hj : j < acc.length + cs
            · refine ⟨cluster, ?_, ?_⟩
              · rw [Nat.div_eq_of_lt (by omega)]
                rfl
              · rw [ht, List.getD_append _ _ _ _ (by rw [hacc']; omega),
                  List.getD_append_right _ _ _ _ hj1, getD_range_map _ _ _ (by omega),
                  Nat.mod_eq_of_lt (by omega)]
            · obtain ⟨ck, hck, hb⟩ := h3 j (by omega) hj2
              refine ⟨ck, ?_, ?_⟩
              · have hsplit : j - acc.length = (j - (acc.length + cs)) + cs := by omega
                rw [hsplit, Nat.add_div_right _ hcs, nthChainCluster, hread]
                simp only []
                rw [if_neg (by simp [heoc, hbad])]
                exact hck
              · have hsplit : j - acc.length = (j - (acc.length + cs)) + cs := by omega
                rw [hsplit, Nat.add_mod_right]
                exact hb

/-- C5: under the precondition `DIR_FileSize ≤ dest_buf_size`, a
successful `fat_read_whole_file` copies exactly `DIR_FileSize` bytes,
and byte `j` comes from offset `j mod cluster_size` of the
`(j div cluster_size)`-th cluster of the chain rooted at the entry's
first cluster (so the whole chain up to that point was intact);
whereas if, with bytes still remaining, the next FAT entry is
end-of-chain or a bad cluster, the loop stops with the corresponding
fatal corruption error. -/
theorem fat_read_whole_file_correct :
    (∀ (hdr : FatHeader) (img : Img) (entryAddr fuel dbs : Nat) (out : List Nat),
      0 < hdr.BPB_SecPerClus * hdr.BPB_BytsPerSec →
      entryFileSize img entryAddr ≤ dbs →
      fat_read_whole_file hdr img entryAddr fuel = .ok out →
      out.length = entryFileSize img entryAddr ∧
      ∀ j, j < entryFileSize img entryAddr →
        ∃ ck, nthChainCluster hdr img (fat_get_type hdr)
            (fat_get_first_cluster img entryAddr)
            (j / (hdr.BPB_SecPerClus * hdr.BPB_BytsPerSec)) = some ck ∧
          out.getD j 0 = u8v img (fat_get_pointer_to_cluster_data hdr ck +
            j % (hdr.BPB_SecPerClus * hdr.BPB_BytsPerSec))) ∧
    (∀ (hdr : FatHeader) (img : Img) (ft : FatType)
        (cs fsize fuel cluster : Nat) (acc : List Nat) (v : Nat),
      cs < fsize - acc.length →
      fat_read_fat_entry hdr img ft cluster 0 = some v →
      fat_is_end_of_clusterchain ft v = true →
      fat_read_whole_file_loop hdr img ft cs fsize (fuel + 1) cluster acc =
        .error .eoc) ∧
    (∀ (hdr : FatHeader) (img : Img) (ft : FatType)
        (cs fsize fuel cluster : Nat) (acc : List Nat) (v : Nat),
      cs < fsize - acc.length →
      fat_read_fat_entry hdr img ft cluster 0 = some v →
      fat_is_end_of_clusterchain ft v = false →
      fat_is_bad_cluster ft v = true →
      fat_read_whole_file_loop hdr img ft cs fsize (fuel + 1) cluster acc =
        .error .bad) := by
  refine ⟨?_, ?_, ?_⟩
  · intro hdr img entryAddr fuel dbs out hcs _hdbs h
    unfold fat_read_whole_file at h
    obtain ⟨h1, _, h3⟩ := read_loop_ok hdr img (fat_get_type hdr)
      (hdr.BPB_SecPerClus * hdr.BPB_BytsPerSec) (entryFileSize img entryAddr)
      hcs fuel (fat_get_first_cluster img entryAddr) [] out (by simp) h
    refine ⟨h1, ?_⟩
    intro j hj
    obtain ⟨ck, hck, hb⟩ := h3 j (by simp) hj
    exact ⟨ck, by simpa using hck, by simpa using hb⟩
  · intro hdr img ft cs fsize fuel cluster acc v hrem hread heoc
    rw [fat_read_whole_file_loop, if_neg (by omega), hread]
    simp only []
    rw [if_pos heoc]
  · intro hdr img ft cs fsize fuel cluster acc v hrem hread heoc hbad
    rw [fat_read_whole_file_loop, if_neg (by omega), hread]
    simp only []
    rw [if_neg (by simp [heoc]), if_pos hbad]

set_option maxRecDepth 1000000 in
/-- Witness for C5: volume D's 40-byte two-cluster file is read
exactly (32 bytes of cluster 2 plus 8 bytes of cluster 3), and on
volume E, where cluster 2's FAT entry is the end-of-chain value
`0xFFF8`, the read stops with the end-of-chain corruption error. -/
theorem fat_read_whole_file_correct_witness :
    (0 < hdrD.BPB_SecPerClus * hdrD.BPB_BytsPerSec ∧
      entryFileSize imgD 192 ≤ 40 ∧
      fat_read_whole_file hdrD imgD 192 5 = .ok outD ∧
      outD.length = entryFileSize imgD 192 ∧
      (∀ j, j < entryFileSize imgD 192 →
        ∃ ck, nthChainCluster hdrD imgD (fat_get_type hdrD)
            (fat_get_first_cluster imgD 192)
            (j / (hdrD.BPB_SecPerClus * hdrD.BPB_BytsPerSec)) = some ck ∧
          outD.getD j 0 = u8v imgD (fat_get_pointer_to_cluster_data hdrD ck +
            j % (hdrD.BPB_SecPerClus * hdrD.BPB_BytsPerSec)))) ∧
    (32 < 40 - ([] : List Nat).length ∧
      fat_read_fat_entry hdrD imgE fat16_type 2 0 = some 0xFFF8 ∧
      fat_is_end_of_clusterchain fat16_type 0xFFF8 = true ∧
      fat_read_whole_file_loop hdrD imgE fat16_type 32 40 5 2 [] = .error .eoc) := by
  have hmain := (fat_read_whole_file_correct.1 hdrD imgD 192 5 40 outD
    (by decide) (by decide) (by rfl))
  refine ⟨⟨by decide, by decide, by rfl, hmain.1, hmain.2⟩,
    by decide, by decide, by decide, ?_⟩
  exact fat_read_whole_file_correct.2.1 hdrD imgE fat16_type 32 40 4 2 [] 0xFFF8
    (by decide) (by decide) (by decide)

end Fat32
